import Mathlib

/-!
Verification development for the pydex relayer core.

The definitions below are shallow embeddings of the Python source files
`src/utils/zeroexutils.py`, `src/utils/miscutils.py`,
`src/pydex_app/constants.py`, `src/pydex_app/db_models.py`,
`src/pydex_app/orderbook.py` and `src/pydex_app/order_update_handler.py`.
Machine integers are modelled as `Nat` (all quantities involved are
unsigned); byte strings are `List Nat` with every entry below 256;
fallible code returns `Option`/`Except`.
-/

deriving instance DecidableEq for Except

namespace PyDex

set_option maxRecDepth 100000

/-! ### Keccak-256 (the `keccak` primitive from `eth_utils` used by
`zeroexutils.py`).  Lanes are 64-bit words modelled as `Nat` reduced
mod 2^64; the state is a flat list of 25 lanes indexed `x + 5*y`. -/

/-- 2^64, the lane modulus. -/
def U64MOD : Nat := 18446744073709551616

/-- Rotate a 64-bit lane left by `n` bits (0 ≤ n < 64). -/
def rotl64 (x n : Nat) : Nat := ((x <<< n) ||| (x >>> (64 - n))) % U64MOD

/-- Bitwise complement of a 64-bit lane. -/
def not64 (x : Nat) : Nat := x ^^^ (U64MOD - 1)

/-- One step of the degree-8 LFSR (polynomial x^8 + x^6 + x^5 + x^4 + 1)
that generates the Keccak round-constant bits. -/
def lfsrStep (r : Nat) : Nat :=
  if 128 ≤ r then (2 * r ^^^ 0x71) % 256 else 2 * r

/-- The ι round constant generated from LFSR state `r0`: bit `2^j - 1` of
the lane is the LFSR output bit at step `j`, for `j = 0 .. 6`.  Returns the
constant together with the advanced LFSR state. -/
def rcFromLfsr (r0 : Nat) : Nat × Nat :=
  (List.range 7).foldl
    (fun acc j =>
      let w := if acc.2 % 2 = 1 then acc.1 ||| (1 <<< ((1 <<< j) - 1)) else acc.1
      (w, lfsrStep acc.2))
    (0, r0)

/-- The first `n` round constants, starting from LFSR state `r`. -/
def keccakRCAux : Nat → Nat → List Nat
  | 0, _ => []
  | n + 1, r =>
    let p := rcFromLfsr r
    p.1 :: keccakRCAux n p.2

/-- The 24 round constants of Keccak-f[1600] (LFSR seeded with 1). -/
def keccakRC : List Nat := keccakRCAux 24 1

/-- One round of Keccak-f[1600]: θ, ρ, π, χ and ι on a 25-lane state.
The ρ/π step writes `b[j] = rotl(e[src j], rot j)` with the standard
source-index and rotation tables, here unrolled. -/
def keccakRound (rc : Nat) (s : List Nat) : List Nat :=
  match s with
  | [a0, a1, a2, a3, a4, a5, a6, a7, a8, a9, a10, a11, a12,
     a13, a14, a15, a16, a17, a18, a19, a20, a21, a22, a23, a24] =>
    let c0 := a0 ^^^ a5 ^^^ a10 ^^^ a15 ^^^ a20
    let c1 := a1 ^^^ a6 ^^^ a11 ^^^ a16 ^^^ a21
    let c2 := a2 ^^^ a7 ^^^ a12 ^^^ a17 ^^^ a22
    let c3 := a3 ^^^ a8 ^^^ a13 ^^^ a18 ^^^ a23
    let c4 := a4 ^^^ a9 ^^^ a14 ^^^ a19 ^^^ a24
    let d0 := c4 ^^^ rotl64 c1 1
    let d1 := c0 ^^^ rotl64 c2 1
    let d2 := c1 ^^^ rotl64 c3 1
    let d3 := c2 ^^^ rotl64 c4 1
    let d4 := c3 ^^^ rotl64 c0 1
    let e0 := a0 ^^^ d0
    let e1 := a1 ^^^ d1
    let e2 := a2 ^^^ d2
    let e3 := a3 ^^^ d3
    let e4 := a4 ^^^ d4
    let e5 := a5 ^^^ d0
    let e6 := a6 ^^^ d1
    let e7 := a7 ^^^ d2
    let e8 := a8 ^^^ d3
    let e9 := a9 ^^^ d4
    let e10 := a10 ^^^ d0
    let e11 := a11 ^^^ d1
    let e12 := a12 ^^^ d2
    let e13 := a13 ^^^ d3
    let e14 := a14 ^^^ d4
    let e15 := a15 ^^^ d0
    let e16 := a16 ^^^ d1
    let e17 := a17 ^^^ d2
    let e18 := a18 ^^^ d3
    let e19 := a19 ^^^ d4
    let e20 := a20 ^^^ d0
    let e21 := a21 ^^^ d1
    let e22 := a22 ^^^ d2
    let e23 := a23 ^^^ d3
    let e24 := a24 ^^^ d4
    let b0 := e0
    let b1 := rotl64 e6 44
    let b2 := rotl64 e12 43
    let b3 := rotl64 e18 21
    let b4 := rotl64 e24 14
    let b5 := rotl64 e3 28
    let b6 := rotl64 e9 20
    let b7 := rotl64 e10 3
    let b8 := rotl64 e16 45
    let b9 := rotl64 e22 61
    let b10 := rotl64 e1 1
    let b11 := rotl64 e7 6
    let b12 := rotl64 e13 25
    let b13 := rotl64 e19 8
    let b14 := rotl64 e20 18
    let b15 := rotl64 e4 27
    let b16 := rotl64 e5 36
    let b17 := rotl64 e11 10
    let b18 := rotl64 e17 15
    let b19 := rotl64 e23 56
    let b20 := rotl64 e2 62
    let b21 := rotl64 e8 55
    let b22 := rotl64 e14 39
    let b23 := rotl64 e15 41
    let b24 := rotl64 e21 2
    let f0 := b0 ^^^ (not64 b1 &&& b2)
    let f1 := b1 ^^^ (not64 b2 &&& b3)
    let f2 := b2 ^^^ (not64 b3 &&& b4)
    let f3 := b3 ^^^ (not64 b4 &&& b0)
    let f4 := b4 ^^^ (not64 b0 &&& b1)
    let f5 := b5 ^^^ (not64 b6 &&& b7)
    let f6 := b6 ^^^ (not64 b7 &&& b8)
    let f7 := b7 ^^^ (not64 b8 &&& b9)
    let f8 := b8 ^^^ (not64 b9 &&& b5)
    let f9 := b9 ^^^ (not64 b5 &&& b6)
    let f10 := b10 ^^^ (not64 b11 &&& b12)
    let f11 := b11 ^^^ (not64 b12 &&& b13)
    let f12 := b12 ^^^ (not64 b13 &&& b14)
    let f13 := b13 ^^^ (not64 b14 &&& b10)
    let f14 := b14 ^^^ (not64 b10 &&& b11)
    let f15 := b15 ^^^ (not64 b16 &&& b17)
    let f16 := b16 ^^^ (not64 b17 &&& b18)
    let f17 := b17 ^^^ (not64 b18 &&& b19)
    let f18 := b18 ^^^ (not64 b19 &&& b15)
    let f19 := b19 ^^^ (not64 b15 &&& b16)
    let f20 := b20 ^^^ (not64 b21 &&& b22)
    let f21 := b21 ^^^ (not64 b22 &&& b23)
    let f22 := b22 ^^^ (not64 b23 &&& b24)
    let f23 := b23 ^^^ (not64 b24 &&& b20)
    let f24 := b24 ^^^ (not64 b20 &&& b21)
    [f0 ^^^ rc, f1, f2, f3, f4, f5, f6, f7, f8, f9, f10, f11, f12,
     f13, f14, f15, f16, f17, f18, f19, f20, f21, f22, f23, f24]
  | _ => s

/-- The full Keccak-f[1600] permutation (24 rounds). -/
def keccakF (s : List Nat) : List Nat :=
  keccakRC.foldl (fun st rc => keccakRound rc st) s

/-- Multi-rate padding for the original Keccak (domain byte 0x01,
rate 136 bytes for Keccak-256). -/
def keccakPad (msg : List Nat) : List Nat :=
  let padLen := 136 - msg.length % 136
  if padLen = 1 then msg ++ [0x81]
  else msg ++ [0x01] ++ List.replicate (padLen - 2) 0 ++ [0x80]

/-- Split a byte list into 136-byte blocks (`fuel` bounds the recursion). -/
def keccakBlocks : Nat → List Nat → List (List Nat)
  | 0, _ => []
  | _ + 1, [] => []
  | n + 1, l => l.take 136 :: keccakBlocks n (l.drop 136)

/-- Interpret up to 8 bytes as a little-endian 64-bit lane. -/
def bytesToLane (bs : List Nat) : Nat :=
  bs.foldr (fun b acc => b + 256 * acc) 0

/-- XOR a 136-byte block into the first 17 lanes of the state. -/
def absorbBlock (st block : List Nat) : List Nat :=
  (List.range 25).map (fun i =>
    st.getD i 0 ^^^ bytesToLane ((block.drop (8 * i)).take 8))

/-- Little-endian bytes of a 64-bit lane. -/
def laneToBytes (x : Nat) : List Nat :=
  (List.range 8).map (fun i => (x >>> (8 * i)) % 256)

/-- Keccak-256 digest (32 bytes) of a byte list.  This is the `keccak`
function from `eth_utils` used throughout `zeroexutils.py`. -/
def keccak256 (msg : List Nat) : List Nat :=
  let padded := keccakPad msg
  let blocks := keccakBlocks padded.length padded
  let final := blocks.foldl (fun st b => keccakF (absorbBlock st b))
    (List.replicate 25 0)
  ((final.take 4).map laneToBytes).flatten

/-! ### Byte/hex/decimal string helpers (models of `HexBytes`, `int(...)`,
`bytes.rjust` and `.hex()` as used in `zeroexutils.py`). -/

/-- Two lowercase hex characters for one byte (`Nat.digitChar` maps
0-15 to the lowercase hex digits, as Python's `bytes.hex()` emits). -/
def byteToHexChars (b : Nat) : List Char :=
  [Nat.digitChar (b / 16), Nat.digitChar (b % 16)]

/-- Render a byte list as a lowercase hex string (Python `bytes.hex()`). -/
def bytesToHex (bs : List Nat) : String :=
  String.mk ((bs.map byteToHexChars).flatten)

/-- Numeric value of one (lowercase) hex character: `0-9` then `a-f`. -/
def hexCharVal (c : Char) : Nat :=
  if c.toNat ≤ 57 then c.toNat - 48 else c.toNat - 87

/-- Bytes from an even-length run of hex characters. -/
def hexCharsToBytes : List Char → List Nat
  | c1 :: c2 :: rest => (hexCharVal c1 * 16 + hexCharVal c2) :: hexCharsToBytes rest
  | _ => []

/-- Model of `HexBytes(s)` for a hex string: drop a leading `0x` and decode
hex pairs into bytes. -/
def hexBytes (s : String) : List Nat :=
  match s.data with
  | '0' :: 'x' :: rest => hexCharsToBytes rest
  | rest => hexCharsToBytes rest

/-- Model of Python `bytes.rjust(n, b"\0")`: left-pad with zero bytes to
length `n` (a longer input is returned unchanged). -/
def rjustZero (n : Nat) (bs : List Nat) : List Nat :=
  List.replicate (n - bs.length) 0 ++ bs

/-- Model of `int(s)` on an unsigned decimal string. -/
def decToNat (s : String) : Nat :=
  s.data.foldl (fun acc c => acc * 10 + (c.toNat - 48)) 0

/-- Model of `x.to_bytes(n, byteorder="big")`. -/
def natToBytesBE (n x : Nat) : List Nat :=
  (List.range n).map (fun i => (x >>> (8 * (n - 1 - i))) % 256)

/-- ASCII bytes of a string (all source strings involved are ASCII). -/
def strBytes (s : String) : List Nat := s.data.map Char.toNat

/-! ### The order-hash engine (`zeroexutils.py`, `ZxSignedOrder.get_order_hash`
and the module-level EIP-712 constants; `db_models.SignedOrder.get_order_hash`
delegates to it on the `to_json` wire representation of the order). -/

/-- `EIP191_HEADER = b"\x19\x01"`. -/
def EIP191_HEADER : List Nat := [0x19, 0x01]

/-- `keccak(b"EIP712Domain(string name,string version,address verifyingContract)")`. -/
def EIP712_DOMAIN_SEPARATOR_SCHEMA_HASH : List Nat :=
  keccak256 (strBytes "EIP712Domain(string name,string version,address verifyingContract)")

/-- Hash of the fixed order type string (field list in declaration order). -/
def EIP712_ORDER_SCHEMA_HASH : List Nat :=
  keccak256 (strBytes
    ("Order(" ++
     "address makerAddress," ++
     "address takerAddress," ++
     "address feeRecipientAddress," ++
     "address senderAddress," ++
     "uint256 makerAssetAmount," ++
     "uint256 takerAssetAmount," ++
     "uint256 makerFee," ++
     "uint256 takerFee," ++
     "uint256 expirationTimeSeconds," ++
     "uint256 salt," ++
     "bytes makerAssetData," ++
     "bytes takerAssetData" ++
     ")"))

/-- `EIP712_DOMAIN_SEPARATOR_SCHEMA_HASH + keccak(b"0x Protocol") + keccak(b"2")`. -/
def EIP712_DOMAIN_STRUCT_HEADER : List Nat :=
  EIP712_DOMAIN_SEPARATOR_SCHEMA_HASH ++
  keccak256 (strBytes "0x Protocol") ++
  keccak256 (strBytes "2")

/-- The wire (JSON) representation of an order as produced by
`SignedOrder.to_json`: addresses, amounts, salt and asset data are strings,
`expirationTimeSeconds` is an integer (DB integer column). -/
structure WireOrder where
  makerAddress : String
  takerAddress : String
  feeRecipientAddress : String
  senderAddress : String
  exchangeAddress : String
  makerAssetAmount : String
  takerAssetAmount : String
  makerFee : String
  takerFee : String
  salt : String
  expirationTimeSeconds : Nat
  makerAssetData : String
  takerAssetData : String
  deriving Repr, DecidableEq

/-- Embedding of `ZxSignedOrder.get_order_hash(order_json)`: EIP-712 domain
struct hash, order struct hash, and the final `0x`-prefixed lowercase hex
digest of `EIP191_HEADER + domain + order`. -/
def get_order_hash (o : WireOrder) : String :=
  let eip712_domain_struct_hash := keccak256
    (EIP712_DOMAIN_STRUCT_HEADER ++ rjustZero 32 (hexBytes o.exchangeAddress))
  let eip712_order_struct_hash := keccak256
    (EIP712_ORDER_SCHEMA_HASH ++
     rjustZero 32 (hexBytes o.makerAddress) ++
     rjustZero 32 (hexBytes o.takerAddress) ++
     rjustZero 32 (hexBytes o.feeRecipientAddress) ++
     rjustZero 32 (hexBytes o.senderAddress) ++
     natToBytesBE 32 (decToNat o.makerAssetAmount) ++
     natToBytesBE 32 (decToNat o.takerAssetAmount) ++
     natToBytesBE 32 (decToNat o.makerFee) ++
     natToBytesBE 32 (decToNat o.takerFee) ++
     natToBytesBE 32 o.expirationTimeSeconds ++
     natToBytesBE 32 (decToNat o.salt) ++
     keccak256 (hexBytes o.makerAssetData) ++
     keccak256 (hexBytes o.takerAssetData))
  "0x" ++ bytesToHex (keccak256
    (EIP191_HEADER ++ eip712_domain_struct_hash ++ eip712_order_struct_hash))

/-- `NULL_ADDRESS` from `constants.py`. -/
def NULL_ADDRESS : String := "0x0000000000000000000000000000000000000000"

/-- The all-null order with the asset-data fields set to the 20-byte null
address, exactly the `make_empty_order()` vector of `tests/test_order.py`. -/
def nullOrderNullAddressAssetData : WireOrder :=
  { makerAddress := NULL_ADDRESS
    takerAddress := NULL_ADDRESS
    feeRecipientAddress := NULL_ADDRESS
    senderAddress := NULL_ADDRESS
    exchangeAddress := NULL_ADDRESS
    makerAssetAmount := "0"
    takerAssetAmount := "0"
    makerFee := "0"
    takerFee := "0"
    salt := "0"
    expirationTimeSeconds := 0
    makerAssetData := NULL_ADDRESS
    takerAssetData := NULL_ADDRESS }

/-- The all-null order with truly empty asset data (`0x`, zero bytes), as the
spec sentence "empty makerAssetData and takerAssetData" describes. -/
def nullOrderEmptyAssetData : WireOrder :=
  { nullOrderNullAddressAssetData with
    makerAssetData := "0x"
    takerAssetData := "0x" }

/-! ### Constants (`pydex_app/constants.py`). -/

/-- `ZERO_STR = "0"`. -/
def ZERO_STR : String := "0"

/-- `MAX_INT_STR = "{:.0f}".format(MAX_INT)` with `MAX_INT = Decimal(2) ** 256`.
Under the default decimal context (28 significant digits, round-half-even)
`Decimal(2) ** 256` is the correctly rounded `1.157920892373161954235709850E+77`,
so the formatted string is that 28-digit coefficient followed by 50 zeros.
It is NOT the exact value of 2^256 (and in particular not 2^256 - 1). -/
def MAX_INT_STR : String :=
  "115792089237316195423570985000000000000000000000000000000000000000000000000000"

/-- Modelled from the spec: `DEFAULT_PAGE` is imported by `orderbook.py` from
`pydex_app/constants.py` but missing from that file under `src/`; pagination is
1-indexed with first page 1 (docstrings: "default: 1", config `OB_DEFAULT_PAGE = 1`). -/
def DEFAULT_PAGE : Nat := 1

/-- Modelled from the spec: `DEFAULT_PER_PAGE` is imported by `orderbook.py` from
`pydex_app/constants.py` but missing from that file under `src/`; the
configurable page size defaults to 20 (docstrings: "default: 20",
config `OB_DEFAULT_PER_PAGE = 20`). -/
def DEFAULT_PER_PAGE : Nat := 20

/-- Modelled from the spec: `DEFAULT_ERC20_DECIMALS` is imported by
`orderbook.py` from `pydex_app/constants.py` but missing from that file under
`src/`; ERC20 assets are annotated with precision 18. -/
def DEFAULT_ERC20_DECIMALS : Nat := 18

/-- Modelled from the spec: `SELECTOR_LENGTH` is imported by `orderbook.py`
from `pydex_app/constants.py` but missing from that file under `src/`; the
proxy selector is the 4-byte prefix of the asset-data blob, which as a
`0x`-prefixed hex string is its first 10 characters. -/
def SELECTOR_LENGTH : Nat := 10

/-! ### Model of Python `Decimal` division and `"{:.18f}"` formatting, as used
by `SignedOrder.update_bid_price` / `update_ask_price` in `db_models.py`.
The default decimal context rounds the quotient to 28 significant digits
(round-half-even); formatting then rounds to 18 fractional digits
(round-half-even again). -/

/-- Round-half-even (banker's rounding) division of naturals. -/
def rhedDiv (num den : Nat) : Nat :=
  let q := num / den
  let r := num % den
  if 2 * r < den then q
  else if den < 2 * r then q + 1
  else if q % 2 = 0 then q else q + 1

/-- Fuel-bounded digit counter. -/
def digitCountAux : Nat → Nat → Nat
  | 0, _ => 0
  | fuel + 1, n => if n < 10 then 1 else digitCountAux fuel (n / 10) + 1

/-- Number of decimal digits of `n` (0 for `n = 0`). -/
def digitCount (n : Nat) : Nat := digitCountAux n n

/-- Whether `a / b ≥ 10^g` (for `a, b > 0`, `g` a possibly negative exponent). -/
def geScaled (a b : Nat) (g : Int) : Bool :=
  if 0 ≤ g then b * 10 ^ g.toNat ≤ a else b ≤ a * 10 ^ (-g).toNat

/-- `⌊log10 (a / b)⌋` for `a, b > 0`. -/
def floorLog10Quot (a b : Nat) : Int :=
  let g : Int := (digitCount a : Int) - (digitCount b : Int)
  if geScaled a b g then g else g - 1

/-- The quotient `a / b` (`a, b > 0`) rounded to 28 significant decimal digits,
as a pair (coefficient, decimal exponent): the value is `c * 10^exp`. -/
def decQuot28 (a b : Nat) : Nat × Int :=
  let e := floorLog10Quot a b
  let c :=
    if 0 ≤ 27 - e then rhedDiv (a * 10 ^ (27 - e).toNat) b
    else rhedDiv a (b * 10 ^ (e - 27).toNat)
  if c = 10 ^ 28 then (10 ^ 27, e - 26) else (c, e - 27)

/-- Left-pad a string with zeros to length `k`. -/
def padZeros (k : Nat) (s : String) : String :=
  String.mk (List.replicate (k - s.length) '0' ++ s.data)

/-- Format the decimal value `c * 10^exp` with exactly 18 fractional digits
(round-half-even), as Python `"{:.18f}".format` does. -/
def fmt18f (c : Nat) (exp : Int) : String :=
  let n :=
    if 0 ≤ exp + 18 then c * 10 ^ (exp + 18).toNat
    else rhedDiv c (10 ^ (-(exp + 18)).toNat)
  Nat.repr (n / 10 ^ 18) ++ "." ++ padZeros 18 (Nat.repr (n % 10 ^ 18))

/-- Model of `"{:.18f}".format(Decimal(a) / Decimal(b))` on naturals:
`none` when `b = 0` (`DivisionByZero`/`InvalidOperation` is raised). -/
def divDecimal18 (a b : Nat) : Option String :=
  if b = 0 then none
  else if a = 0 then some ("0." ++ padZeros 18 "")
  else
    let ce := decQuot28 a b
    some (fmt18f ce.1 ce.2)

/-- Model of `Decimal(s)` restricted to the repo's amount strings (unsigned
integer decimal strings): `none` when the string is not all digits
(`InvalidOperation` / `TypeError` is raised and caught by the bare `except`). -/
def parseDecimalNat (s : String) : Option Nat :=
  if !s.data.isEmpty && s.data.all Char.isDigit then some (decToNat s) else none

/-! ### `utils/miscutils.py`. -/

/-- Embedding of `miscutils.paginate`: `page_idx = page - 1` is used directly
as the start index of the slice `arr[page_idx : page_idx + per_page]`. -/
def paginate (arr : List α) (page per_page : Nat) : List α :=
  let page_idx := page - 1
  (arr.drop page_idx).take per_page

/-- ASCII lowercasing of one character (Python `str.lower` on the ASCII
strings this system handles). -/
def pyLowerChar (c : Char) : Char :=
  if 'A' ≤ c ∧ c ≤ 'Z' then Char.ofNat (c.toNat + 32) else c

/-- Python `s.lower()` (character-wise). -/
def pyLower (s : String) : String := String.mk (s.data.map pyLowerChar)

/-- Python string slicing `s[:n]` (by characters). -/
def strTake (s : String) (n : Nat) : String := String.mk (s.data.take n)

/-- Embedding of `miscutils.normalize_query_param`: lowercase the parameter,
with falsy values (`None`, `""`) mapped to `None`. -/
def normalize_query_param (q : Option String) : Option String :=
  match q with
  | some s => if s.data.isEmpty then none else some (pyLower s)
  | none => none

/-! ### The `OrderStatus` enumeration (`db_models.py`). -/

namespace OrderStatus

def INVALID : Int := -10
def UNFILLABLE_UNFUNDED : Int := -7
def UNFILLABLE_CANCELLED_PARTIALLY_FILLED : Int := -6
def UNFILLABLE_CANCELLED : Int := -5
def UNFILLABLE_EXPIRED_PARTIALLY_FILLED : Int := -4
def UNFILLABLE_EXPIRED : Int := -3
def UNFILLABLE_FILLED : Int := -2
def UNFILLABLE : Int := -1
def MAYBE_FILLABLE : Int := 0
def FILLABLE : Int := 1
def FILLABLE_FULLY : Int := 2
def FILLABLE_PARTIALLY : Int := 3

end OrderStatus

/-! ### The `SignedOrder` entity (`db_models.py`).  Database columns are
strings except `expiration_time_secs` (integer) and `order_status` (integer);
`sort_price` is the non-column `_sort_price` attribute used for full-set
merges (initially `None`).  The creation/update timestamps and `fill_amount`
play no role in any claim and are omitted. -/

structure SignedOrder where
  hash : String
  maker_address : String
  taker_address : String
  exchange_address : String
  fee_recipient_address : String
  sender_address : String
  maker_asset_amount : String
  taker_asset_amount : String
  maker_fee : String
  taker_fee : String
  salt : String
  expiration_time_secs : Nat
  maker_asset_data : String
  taker_asset_data : String
  signature : String
  bid_price : String
  ask_price : String
  order_status : Int
  sort_price : Option String
  deriving Repr, DecidableEq

/-- A freshly constructed `SignedOrder()`: column defaults apply
(`taker_address`, `fee_recipient_address`, `sender_address` default to the
null address, fees to `"0"`, `order_status` to `MAYBE_FILLABLE`); the other
columns are unset (modelled as `""`). -/
def SignedOrder.new : SignedOrder :=
  { hash := ""
    maker_address := ""
    taker_address := NULL_ADDRESS
    exchange_address := ""
    fee_recipient_address := NULL_ADDRESS
    sender_address := NULL_ADDRESS
    maker_asset_amount := ""
    taker_asset_amount := ""
    maker_fee := "0"
    taker_fee := "0"
    salt := ""
    expiration_time_secs := 0
    maker_asset_data := ""
    taker_asset_data := ""
    signature := ""
    bid_price := ""
    ask_price := ""
    order_status := OrderStatus.MAYBE_FILLABLE
    sort_price := none }

/-- Embedding of `SignedOrder.to_json` (without the optional hash and
signature keys, which `get_order_hash` ignores). -/
def SignedOrder.to_json (o : SignedOrder) : WireOrder :=
  { makerAddress := o.maker_address
    takerAddress := o.taker_address
    makerFee := o.maker_fee
    takerFee := o.taker_fee
    senderAddress := o.sender_address
    makerAssetAmount := o.maker_asset_amount
    takerAssetAmount := o.taker_asset_amount
    makerAssetData := o.maker_asset_data
    takerAssetData := o.taker_asset_data
    exchangeAddress := o.exchange_address
    salt := o.salt
    feeRecipientAddress := o.fee_recipient_address
    expirationTimeSeconds := o.expiration_time_secs }

/-- Embedding of `SignedOrder.update_bid_price(default_price)`:
`bid_price = "{:.18f}".format(Decimal(taker_asset_amount) / Decimal(maker_asset_amount))`,
with the bare `except` substituting `default_price` on any failure
(non-numeric amount or division by zero).  The Python default for
`default_price` is `ZERO_STR`; callers here pass it explicitly. -/
def update_bid_price (o : SignedOrder) (default_price : String) : SignedOrder :=
  match parseDecimalNat o.taker_asset_amount, parseDecimalNat o.maker_asset_amount with
  | some t, some m =>
    match divDecimal18 t m with
    | some s => { o with bid_price := s }
    | none => { o with bid_price := default_price }
  | _, _ => { o with bid_price := default_price }

/-- Embedding of `SignedOrder.update_ask_price(default_price)`:
`ask_price = "{:.18f}".format(Decimal(maker_asset_amount) / Decimal(taker_asset_amount))`,
with the bare `except` substituting `default_price` (Python default
`MAX_INT_STR`; callers here pass it explicitly). -/
def update_ask_price (o : SignedOrder) (default_price : String) : SignedOrder :=
  match parseDecimalNat o.maker_asset_amount, parseDecimalNat o.taker_asset_amount with
  | some m, some t =>
    match divDecimal18 m t with
    | some s => { o with ask_price := s }
    | none => { o with ask_price := default_price }
  | _, _ => { o with ask_price := default_price }

/-- `SignedOrder.update_bid_ask_prices`: both updates with their defaults. -/
def update_bid_ask_prices (o : SignedOrder) : SignedOrder :=
  update_ask_price (update_bid_price o ZERO_STR) MAX_INT_STR

/-- `SignedOrder.update_hash`: recompute the hash from the wire fields. -/
def update_hash (o : SignedOrder) : SignedOrder :=
  { o with hash := get_order_hash o.to_json }

/-- `SignedOrder.update`: prices, then hash. -/
def SignedOrder.update (o : SignedOrder) : SignedOrder :=
  update_hash (update_bid_ask_prices o)

/-- `_sort_price = bid_price` (`set_bid_as_sort_price`). -/
def set_bid_as_sort_price (o : SignedOrder) : SignedOrder :=
  { o with sort_price := some o.bid_price }

/-- `_sort_price = ask_price` (`set_ask_as_sort_price`). -/
def set_ask_as_sort_price (o : SignedOrder) : SignedOrder :=
  { o with sort_price := some o.ask_price }

/-- The JSON payload accepted by `SignedOrder.from_json`: the wire fields,
the signature, and optionally the `test_order_status` key. -/
structure OrderJson where
  makerAddress : String
  takerAddress : String
  makerFee : String
  takerFee : String
  senderAddress : String
  makerAssetAmount : String
  takerAssetAmount : String
  makerAssetData : String
  takerAssetData : String
  salt : String
  exchangeAddress : String
  feeRecipientAddress : String
  expirationTimeSeconds : Nat
  signature : String
  test_order_status : Option Int
  deriving Repr, DecidableEq

/-- Embedding of `SignedOrder.from_json(order_json, check_validity,
include_signature)`.  `schemaValid` abstracts the external
`zero_ex.json_schemas.assert_valid` check (a library outside this repo);
when `check_validity` is set and the schema check fails, `assert_valid`
raises, modelled as `none`.  If the key `"test_order_status"` is present its
value overrides the default intake status.  The populated order is then
`update()`d (prices and hash). -/
def from_json (schemaValid : OrderJson → Bool) (order_json : OrderJson)
    (check_validity include_signature : Bool) : Option SignedOrder :=
  let order0 := SignedOrder.new
  let order0 :=
    match order_json.test_order_status with
    | some v => { order0 with order_status := v }
    | none => order0
  if check_validity && !schemaValid order_json then none
  else
    let order :=
      { order0 with
        maker_address := order_json.makerAddress
        taker_address := order_json.takerAddress
        maker_fee := order_json.makerFee
        taker_fee := order_json.takerFee
        sender_address := order_json.senderAddress
        maker_asset_amount := order_json.makerAssetAmount
        taker_asset_amount := order_json.takerAssetAmount
        maker_asset_data := order_json.makerAssetData
        taker_asset_data := order_json.takerAssetData
        salt := order_json.salt
        exchange_address := order_json.exchangeAddress
        fee_recipient_address := order_json.feeRecipientAddress
        expiration_time_secs := order_json.expirationTimeSeconds
        signature := if include_signature then order_json.signature else order0.signature }
    some order.update

/-! ### Orderbook (`pydex_app/orderbook.py`). -/

/-- Lexicographic (byte-wise) order on strings: `charListLe a b` iff `a ≤ b`.
This is how both the SQL layer (BINARY collation on string columns) and
Python compare the price strings stored in `bid_price`/`ask_price`. -/
def charListLe : List Char → List Char → Bool
  | [], _ => true
  | _ :: _, [] => false
  | a :: as, b :: bs =>
    if a.toNat < b.toNat then true
    else if b.toNat < a.toNat then false
    else charListLe as bs

/-- String comparison `a ≤ b` (lexicographic on code points). -/
def strLe (a b : String) : Bool := charListLe a.data b.data

/-- Stable insertion into a sorted list: `le x y` means `x` may stay in front
of `y` (true on ties, so earlier elements keep their place). -/
def orderedInsertBy (le : α → α → Bool) (x : α) : List α → List α
  | [] => [x]
  | y :: ys => if le x y then x :: y :: ys else y :: orderedInsertBy le x ys

/-- Stable insertion sort with respect to `le` (models both the SQL
`ORDER BY` on a string column and Python's stable `sorted`). -/
def sortByLe (le : α → α → Bool) : List α → List α
  | [] => []
  | x :: xs => orderedInsertBy le x (sortByLe le xs)

/-- A full-set descriptor: the dict with `LONG` and `SHORT` asset data. -/
structure FullSet where
  LONG : String
  SHORT : String
  deriving Repr, DecidableEq

/-- Embedding of `Orderbook.get_full_set_equivalent(maker_asset, taker_asset,
full_asset_set)`: the equivalent maker/taker pair using the complementary
asset of the full set, `ValueError` when neither side matches. -/
def get_full_set_equivalent (maker_asset taker_asset : String)
    (full_asset_set : FullSet) : Except String (String × String) :=
  let long_asset := full_asset_set.LONG
  let short_asset := full_asset_set.SHORT
  if maker_asset = long_asset then
    .ok (taker_asset, short_asset)
  else if maker_asset = short_asset then
    .ok (taker_asset, long_asset)
  else if taker_asset = long_asset then
    .ok (short_asset, maker_asset)
  else if taker_asset = short_asset then
    .ok (long_asset, maker_asset)
  else
    .error "Neither make or taker assets matched the assets provided in the full set"

/-- The sort key used after a full-set merge (`o.sort_price`; every element
of the merged list has it set). -/
def sortKey (o : SignedOrder) : String := o.sort_price.getD ""

/-- Embedding of `Orderbook.get_bids(base_asset, quote_asset, full_asset_set,
page, per_page)` over a store modelled as the list of persisted orders:
filter on `maker_asset_data == quote`, `taker_asset_data == base`,
`order_status > 0`; SQL-sort by the `bid_price` string descending; with a
full set, merge in the complementary asks tagged with their ask price as
sort key and re-sort descending by the sort key (`reverse=True`); return the
requested page and the total count. -/
def get_bids (store : List SignedOrder) (base_asset quote_asset : String)
    (full_asset_set : Option FullSet) (page per_page : Nat) :
    Except String (List SignedOrder × Nat) :=
  let nq := (normalize_query_param (some quote_asset)).getD ""
  let nb := (normalize_query_param (some base_asset)).getD ""
  let bids := store.filter (fun o =>
    o.maker_asset_data = nq && o.taker_asset_data = nb && 0 < o.order_status)
  let bids_count := bids.length
  let bids_sorted := sortByLe (fun a b => strLe b.bid_price a.bid_price) bids
  match full_asset_set with
  | none => .ok (paginate bids_sorted page per_page, bids_count)
  | some fs =>
    match get_full_set_equivalent nq nb fs with
    | .error e => .error e
    | .ok (eq_maker, eq_taker) =>
      let eq_asks := store.filter (fun o =>
        o.maker_asset_data = pyLower eq_maker && o.taker_asset_data = pyLower eq_taker
          && 0 < o.order_status)
      let count := bids_count + eq_asks.length
      let merged := bids_sorted.map set_bid_as_sort_price ++
        eq_asks.map set_ask_as_sort_price
      let merged := sortByLe (fun a b => strLe (sortKey b) (sortKey a)) merged
      .ok (paginate merged page per_page, count)

/-- Embedding of `Orderbook.get_asks`: filter on `maker_asset_data == base`,
`taker_asset_data == quote`, `order_status > 0`; SQL-sort by the `ask_price`
string ascending; with a full set, merge in the complementary bids tagged
with their bid price as sort key and re-sort with `reverse=True`
(descending, exactly as the source does). -/
def get_asks (store : List SignedOrder) (base_asset quote_asset : String)
    (full_asset_set : Option FullSet) (page per_page : Nat) :
    Except String (List SignedOrder × Nat) :=
  let nq := (normalize_query_param (some quote_asset)).getD ""
  let nb := (normalize_query_param (some base_asset)).getD ""
  let asks := store.filter (fun o =>
    o.maker_asset_data = nb && o.taker_asset_data = nq && 0 < o.order_status)
  let asks_count := asks.length
  let asks_sorted := sortByLe (fun a b => strLe a.ask_price b.ask_price) asks
  match full_asset_set with
  | none => .ok (paginate asks_sorted page per_page, asks_count)
  | some fs =>
    match get_full_set_equivalent nb nq fs with
    | .error e => .error e
    | .ok (eq_maker, eq_taker) =>
      let eq_bids := store.filter (fun o =>
        o.maker_asset_data = pyLower eq_maker && o.taker_asset_data = pyLower eq_taker
          && 0 < o.order_status)
      let count := asks_count + eq_bids.length
      let merged := asks_sorted.map set_ask_as_sort_price ++
        eq_bids.map set_bid_as_sort_price
      let merged := sortByLe (fun a b => strLe (sortKey b) (sortKey a)) merged
      .ok (paginate merged page per_page, count)

/-- Embedding of `Orderbook.add_order(order_json)`: parse with schema
validation, hash, and persist at the intake status. -/
def add_order (schemaValid : OrderJson → Bool) (store : List SignedOrder)
    (order_json : OrderJson) : Option (List SignedOrder) :=
  (from_json schemaValid order_json true true).map (fun o => store ++ [o])

/-- Model of `zero_ex.dev_utils.abi_utils.method_id(name, types)`: the
`0x`-prefixed hex of the first 4 bytes of the Keccak-256 hash of the
canonical signature. -/
def method_id (signatureString : String) : String :=
  "0x" ++ bytesToHex ((keccak256 (strBytes signatureString)).take 4)

/-- An asset annotation of a `get_asset_pairs` record. -/
structure AssetPairsAsset where
  minAmount : String
  maxAmount : String
  precision : Nat
  assetData : String
  deriving Repr, DecidableEq

/-- One record of `get_asset_pairs`. -/
structure AssetPairData where
  assetDataA : AssetPairsAsset
  assetDataB : AssetPairsAsset
  deriving Repr, DecidableEq

/-- `erc20_asset_data_to_asset` from `Orderbook.get_asset_pairs`. -/
def erc20_asset_data_to_asset (asset_data : String) : AssetPairsAsset :=
  { minAmount := ZERO_STR
    maxAmount := MAX_INT_STR
    precision := DEFAULT_ERC20_DECIMALS
    assetData := asset_data }

/-- `erc721_asset_data_to_asset` from `Orderbook.get_asset_pairs`. -/
def erc721_asset_data_to_asset (asset_data : String) : AssetPairsAsset :=
  { minAmount := ZERO_STR
    maxAmount := "1"
    precision := 0
    assetData := asset_data }

/-- `asset_data_to_asset`: dispatch on the first `SELECTOR_LENGTH` characters
(the proxy selector); unrecognized selectors raise `ValueError`. -/
def asset_data_to_asset (asset_data : String) : Except String AssetPairsAsset :=
  let asset_proxy_id := strTake asset_data SELECTOR_LENGTH
  if asset_proxy_id = method_id "ERC20Token(address)" then
    .ok (erc20_asset_data_to_asset asset_data)
  else if asset_proxy_id = method_id "ERC721Token(address)" then
    .ok (erc721_asset_data_to_asset asset_data)
  else
    .error ("Invalid asset data " ++ asset_data)

/-- `get_asset_pair_data` for one maker/taker asset-data pair (the first
failing side raises). -/
def get_asset_pair_data (asset_pair : String × String) :
    Except String AssetPairData :=
  match asset_data_to_asset asset_pair.1, asset_data_to_asset asset_pair.2 with
  | .ok a, .ok b => .ok { assetDataA := a, assetDataB := b }
  | .error e, _ => .error e
  | _, .error e => .error e

/-- Evaluate a fallible function on every element of a list, propagating the
first error (a Python list comprehension in which an element may raise). -/
def mapExcept (f : α → Except String β) : List α → Except String (List β)
  | [] => .ok []
  | x :: xs =>
    match f x, mapExcept f xs with
    | .ok y, .ok ys => .ok (y :: ys)
    | .error e, _ => .error e
    | _, .error e => .error e

/-- The query filter of `get_asset_pairs`: `order_status > 0`, plus the
maker/taker asset-data equality filters when the corresponding (truthy)
parameter was supplied. -/
def asset_pairs_where (asset_data_a asset_data_b : Option String)
    (o : SignedOrder) : Bool :=
  let na := normalize_query_param asset_data_a
  let nb := normalize_query_param asset_data_b
  let truthyA := match asset_data_a with | some s => !s.data.isEmpty | none => false
  let truthyB := match asset_data_b with | some s => !s.data.isEmpty | none => false
  0 < o.order_status
    && (!truthyA || some o.maker_asset_data == na)
    && (!truthyB || some o.taker_asset_data == nb)

/-- The distinct `(maker_asset_data, taker_asset_data)` pairs of the
filtered orders (Python materialises them through a `set`, whose iteration
order is unspecified; the model keeps first occurrences). -/
def unique_asset_pairs (store : List SignedOrder)
    (asset_data_a asset_data_b : Option String) : List (String × String) :=
  ((store.filter (asset_pairs_where asset_data_a asset_data_b)).map
    (fun o => (o.maker_asset_data, o.taker_asset_data))).dedup

/-- Embedding of `Orderbook.get_asset_pairs(asset_data_a, asset_data_b,
page, per_page)`: the distinct asset-data pairs among fillable orders,
annotated by proxy type, paginated together with the total count. -/
def get_asset_pairs (store : List SignedOrder)
    (asset_data_a asset_data_b : Option String) (page per_page : Nat) :
    Except String (List AssetPairData × Nat) :=
  match mapExcept get_asset_pair_data
      (unique_asset_pairs store asset_data_a asset_data_b) with
  | .error e => .error e
  | .ok asset_pairs_data =>
    .ok (paginate asset_pairs_data page per_page, asset_pairs_data.length)

/-! ### The reconciler (`pydex_app/order_update_handler.py`).  The shared
order table is modelled as the list of persisted orders; each operation is
the net effect of one committed call path. -/

/-- The `unfillable_handlers` dict.  Every key is bound to the same
`self.handle_unfillable_order` method, which demotes the order to
`OrderStatus.UNFILLABLE` (-1); the pair records the grade that the bound
handler assigns. -/
def unfillable_handlers : List (String × Int) :=
  [("ORDER_FILL_EXPIRED", OrderStatus.UNFILLABLE),
   ("ORDER_ALREADY_CANCELLED_OR_FILLED", OrderStatus.UNFILLABLE),
   ("ORDER_REMAINING_FILL_AMOUNT_ZERO", OrderStatus.UNFILLABLE),
   ("ORDER_FILL_ROUNDING_ERROR", OrderStatus.UNFILLABLE),
   ("FILL_BALANCE_ALLOWANCE_ERROR", OrderStatus.UNFILLABLE),
   ("INSUFFICIENT_TAKER_BALANCE", OrderStatus.UNFILLABLE),
   ("INSUFFICIENT_TAKER_ALLOWANCE", OrderStatus.UNFILLABLE),
   ("INSUFFICIENT_MAKER_BALANCE", OrderStatus.UNFILLABLE),
   ("INSUFFICIENT_MAKER_ALLOWANCE", OrderStatus.UNFILLABLE),
   ("TRANSACTION_SENDER_IS_NOT_FILL_ORDER_TAKER", OrderStatus.UNFILLABLE),
   ("INSUFFICIENT_REMAINING_FILL_AMOUNT", OrderStatus.UNFILLABLE)]

/-- Embedding of `handle_fillable_order(order_hash)`: look the order up by
hash and, when present, set its status to `FILLABLE` - with no guard on the
current status.  A missing hash is a logged no-op. -/
def handle_fillable_order (store : List SignedOrder) (order_hash : String) :
    List SignedOrder :=
  store.map (fun o =>
    if o.hash = order_hash then { o with order_status := OrderStatus.FILLABLE } else o)

/-- Embedding of `handle_unfillable_order(order_hash, reason)`: look the
order up by hash and, when present, set its status to the grade assigned by
the bound handler (`UNFILLABLE`). -/
def handle_unfillable_order (store : List SignedOrder) (order_hash : String)
    (grade : Int) : List SignedOrder :=
  store.map (fun o =>
    if o.hash = order_hash then { o with order_status := grade } else o)

/-- The net effect of one polling cycle on the order table
(`run` + `_fetch_non_unfillables` + `handle_maybe_fillable_order`): orders
with `order_status > 0` are re-pushed to the watcher with no status change;
orders with `order_status == 0` are registered and promoted to `FILLABLE`
exactly when the watcher's order count increased (`accepted`); orders with
negative status are not fetched (`order_status >= 0` filter) and never
touched. -/
def poll_cycle (store : List SignedOrder) (accepted : String → Bool) :
    List SignedOrder :=
  store.map (fun o =>
    if o.order_status = 0 && accepted o.hash then
      { o with order_status := OrderStatus.FILLABLE }
    else o)

/-- A watcher notification: the `result` dict of an envelope, with its
optional `orderHash`, `isValid` and `error` keys. -/
structure Notification where
  orderHash : Option String
  isValid : Option Bool
  error : Option String
  deriving Repr, DecidableEq

/-- Embedding of `on_update(res)`: missing `orderHash` or `isValid` is a
logged no-op; `isValid == True` dispatches to `handle_fillable_order`;
`isValid == False` looks the reason up in `unfillable_handlers` and
dispatches to the bound handler - an unrecognized (or missing) reason raises
`KeyError`, modelled as an error (no store mutation is committed). -/
def on_update (store : List SignedOrder) (res : Notification) :
    Except String (List SignedOrder) :=
  match res.orderHash with
  | none => .ok store
  | some order_hash =>
    match res.isValid with
    | none => .ok store
    | some true => .ok (handle_fillable_order store order_hash)
    | some false =>
      match res.error with
      | none => .error "KeyError"
      | some invalid_reason =>
        match unfillable_handlers.lookup invalid_reason with
        | some grade => .ok (handle_unfillable_order store order_hash grade)
        | none => .error "KeyError"

/-- A reconciler operation: one polling cycle, or one inbound watcher
notification handled by `on_update`. -/
inductive ROp where
  | poll (accepted : String → Bool)
  | notify (res : Notification)

/-- Apply one reconciler operation to the order table; an operation that
raises (unrecognized reason) commits nothing. -/
def apply_op (store : List SignedOrder) : ROp → List SignedOrder
  | .poll accepted => poll_cycle store accepted
  | .notify res =>
    match on_update store res with
    | .ok store2 => store2
    | .error _ => store

/-- Apply a sequence of reconciler operations in order. -/
def apply_ops (store : List SignedOrder) (ops : List ROp) : List SignedOrder :=
  ops.foldl apply_op store

/-- The status of the order with the given hash, when present. -/
def statusOf (store : List SignedOrder) (h : String) : Option Int :=
  (store.find? (fun o => o.hash = h)).map (fun o => o.order_status)

/-- Whether an operation is an `isValid == true` notification for hash `h`
(the one call path that writes `FILLABLE` without a status guard). -/
def promotesHash (h : String) : ROp → Bool
  | .poll _ => false
  | .notify res => res.orderHash == some h && res.isValid == some true

/-! ### Helper definitions for the claim statements. -/

/-- Apply `get_full_set_equivalent` twice with the same full-set descriptor. -/
def full_set_equiv_twice (maker_asset taker_asset : String) (fs : FullSet) :
    Except String (String × String) :=
  match get_full_set_equivalent maker_asset taker_asset fs with
  | .ok p => get_full_set_equivalent p.1 p.2 fs
  | .error e => .error e

/-- Numeric value of a fixed-point price string in units of 10^-18 (read the
string "as a number"): drop the decimal point and read the digits. -/
def fixed18Val (s : String) : Nat :=
  decToNat (String.mk (s.data.filter (fun c => !(c = '.'))))

/-- The `bid_price` column of each order of a successful orderbook page. -/
def bidPricesOf (r : Except String (List SignedOrder × Nat)) : List String :=
  match r with
  | .ok p => p.1.map (fun o => o.bid_price)
  | .error _ => []

/-- The `ask_price` column of each order of a successful orderbook page. -/
def askPricesOf (r : Except String (List SignedOrder × Nat)) : List String :=
  match r with
  | .ok p => p.1.map (fun o => o.ask_price)
  | .error _ => []

/-- Boolean form of "every order with hash `h` in the table has a negative
(confirmed-unfillable) status". -/
def allNegFor (store : List SignedOrder) (h : String) : Bool :=
  store.all (fun o => decide (o.hash = h → o.order_status < 0))

/-- An asset annotation is exactly the one its selector prescribes: the
ERC20 annotation under the ERC20 selector, or the ERC721 annotation under
the ERC721 selector (the selectors as `get_asset_pairs` computes them). -/
def wellAnnotated (a : AssetPairsAsset) : Bool :=
  (strTake a.assetData SELECTOR_LENGTH == method_id "ERC20Token(address)"
    && a == erc20_asset_data_to_asset a.assetData)
  || (strTake a.assetData SELECTOR_LENGTH == method_id "ERC721Token(address)"
    && a == erc721_asset_data_to_asset a.assetData)

/-- Whether an asset-data string carries one of the two recognized proxy
selectors. -/
def knownSelector (asset_data : String) : Bool :=
  strTake asset_data SELECTOR_LENGTH == method_id "ERC20Token(address)"
  || strTake asset_data SELECTOR_LENGTH == method_id "ERC721Token(address)"

/-- The `maxAmount` annotation of the maker-side asset of each record of a
successful `get_asset_pairs` result. -/
def maxAmountsA (r : Except String (List AssetPairData × Nat)) : List String :=
  match r with
  | .ok p => p.1.map (fun rec => rec.assetDataA.maxAmount)
  | .error _ => []

/-! ### Concrete instances used by counterexamples and witnesses. -/

/-- An order already marked unfillable (negative grade). -/
def C2order : SignedOrder :=
  { SignedOrder.new with hash := "0xdead", order_status := OrderStatus.UNFILLABLE }

/-- A store holding one order at the specific negative grade -3. -/
def C2wstore : List SignedOrder :=
  [{ SignedOrder.new with hash := "0xbeef", order_status := OrderStatus.UNFILLABLE_EXPIRED }]

/-- A reconciler schedule with no `isValid == true` notification for
`0xbeef`: a poll cycle, a recognized invalid notification for `0xbeef`, and
a valid notification for a different hash. -/
def C2wops : List ROp :=
  [ROp.poll (fun _ => true),
   ROp.notify
     { orderHash := some "0xbeef"
       isValid := some false
       error := some "ORDER_FILL_EXPIRED" },
   ROp.notify { orderHash := some "0xaaaa", isValid := some true, error := none }]

/-- Fillable bid at price taker/maker = 2. -/
def C4orderA : SignedOrder :=
  update_bid_ask_prices
    { SignedOrder.new with
      hash := "0x01"
      maker_asset_data := "0xaaa1"
      taker_asset_data := "0xbbb1"
      maker_asset_amount := "1"
      taker_asset_amount := "2"
      order_status := OrderStatus.FILLABLE }

/-- Fillable bid at price taker/maker = 10. -/
def C4orderB : SignedOrder :=
  update_bid_ask_prices
    { SignedOrder.new with
      hash := "0x02"
      maker_asset_data := "0xaaa1"
      taker_asset_data := "0xbbb1"
      maker_asset_amount := "1"
      taker_asset_amount := "10"
      order_status := OrderStatus.FILLABLE }

/-- A store with two fillable bids on the same pair, at prices 2 and 10. -/
def C4store : List SignedOrder := [C4orderA, C4orderB]

/-- Fillable ask at price maker/taker = 10. -/
def C5orderE : SignedOrder :=
  update_bid_ask_prices
    { SignedOrder.new with
      hash := "0x03"
      maker_asset_data := "0xbbb2"
      taker_asset_data := "0xaaa2"
      maker_asset_amount := "10"
      taker_asset_amount := "1"
      order_status := OrderStatus.FILLABLE }

/-- Fillable ask at price maker/taker = 9. -/
def C5orderF : SignedOrder :=
  update_bid_ask_prices
    { SignedOrder.new with
      hash := "0x04"
      maker_asset_data := "0xbbb2"
      taker_asset_data := "0xaaa2"
      maker_asset_amount := "9"
      taker_asset_amount := "1"
      order_status := OrderStatus.FILLABLE }

/-- A store with two fillable asks on the same pair, at prices 10 and 9. -/
def C5store : List SignedOrder := [C5orderE, C5orderF]

/-- Fillable ask at price maker/taker = 2 (second pair). -/
def C5orderG : SignedOrder :=
  update_bid_ask_prices
    { SignedOrder.new with
      hash := "0x05"
      maker_asset_data := "0xbbb3"
      taker_asset_data := "0xaaa3"
      maker_asset_amount := "2"
      taker_asset_amount := "1"
      order_status := OrderStatus.FILLABLE }

/-- Fillable ask at price maker/taker = 3 (second pair). -/
def C5orderH : SignedOrder :=
  update_bid_ask_prices
    { SignedOrder.new with
      hash := "0x06"
      maker_asset_data := "0xbbb3"
      taker_asset_data := "0xaaa3"
      maker_asset_amount := "3"
      taker_asset_amount := "1"
      order_status := OrderStatus.FILLABLE }

/-- A store with two fillable asks at prices 2 and 3, queried with a
full-set descriptor whose LONG asset is the quote asset. -/
def C5store2 : List SignedOrder := [C5orderG, C5orderH]

/-- An order with `maker_asset_amount = "0"` and a nonzero taker amount. -/
def C6orderMakerZero : SignedOrder :=
  { SignedOrder.new with maker_asset_amount := "0", taker_asset_amount := "5" }

/-- An order with `taker_asset_amount = "0"` and a nonzero maker amount. -/
def C6orderTakerZero : SignedOrder :=
  { SignedOrder.new with maker_asset_amount := "5", taker_asset_amount := "0" }

/-- An ERC20 asset-data blob (selector `0xf47261b0`), from the repo's test
fixtures. -/
def VETH_ASSET_DATA : String :=
  "0xf47261b0000000000000000000000000c4abc01578139e2105d9c9eba0b0aa6f6a60d082"

/-- Another ERC20 asset-data blob from the repo's test fixtures. -/
def LONG_ASSET_DATA : String :=
  "0xf47261b0000000000000000000000000358b48569a4a4ef6310c1f1d8e50be9d068a50c6"

/-- A store with one fillable ERC20/ERC20 order. -/
def C9store : List SignedOrder :=
  [{ SignedOrder.new with
     hash := "0x09"
     maker_asset_data := VETH_ASSET_DATA
     taker_asset_data := LONG_ASSET_DATA
     order_status := OrderStatus.FILLABLE }]

/-- The asset-pair records `get_asset_pairs` produces for `C9store`. -/
def C9recs : List AssetPairData :=
  [{ assetDataA := erc20_asset_data_to_asset VETH_ASSET_DATA,
     assetDataB := erc20_asset_data_to_asset LONG_ASSET_DATA }]

/-- A schema-valid submission carrying the `test_order_status` key with the
positive (fillable) grade 2. -/
def C10json : OrderJson :=
  { makerAddress := NULL_ADDRESS
    takerAddress := NULL_ADDRESS
    makerFee := "0"
    takerFee := "0"
    senderAddress := NULL_ADDRESS
    makerAssetAmount := "1"
    takerAssetAmount := "2"
    makerAssetData := "0x"
    takerAssetData := "0x"
    salt := "0"
    exchangeAddress := NULL_ADDRESS
    feeRecipientAddress := NULL_ADDRESS
    expirationTimeSeconds := 0
    signature := "0x"
    test_order_status := some OrderStatus.FILLABLE_FULLY }

/-! ### Supporting lemmas. -/

/-- Every grade in the `unfillable_handlers` mapping is the generic
`UNFILLABLE` (-1): all handlers are the same bound method. -/
lemma unfillable_lookup_grade (r : String) (g : Int)
    (h : unfillable_handlers.lookup r = some g) : g = OrderStatus.UNFILLABLE := by
  simp only [unfillable_handlers, List.lookup] at h
  repeat' split at h
  all_goals simp_all

/-- The negative-status invariant for one order hash. -/
def NegInv (store : List SignedOrder) (h : String) : Prop :=
  ∀ o ∈ store, o.hash = h → o.order_status < 0

lemma allNegFor_iff (store : List SignedOrder) (h : String) :
    allNegFor store h = true ↔ NegInv store h := by
  simp [allNegFor, NegInv, List.all_eq_true, imp_iff_not_or]

/-- A status-overwriting map (the shape shared by `poll_cycle`,
`handle_fillable_order` and `handle_unfillable_order`) preserves the
negative-status invariant as long as it never writes a non-negative status
onto an order with hash `h`. -/
lemma negInv_map (store : List SignedOrder) (h : String) (f : SignedOrder → SignedOrder)
    (hhash : ∀ o, (f o).hash = o.hash)
    (hstat : ∀ o ∈ store, o.hash = h → o.order_status < 0 → (f o).order_status < 0)
    (hneg : NegInv store h) : NegInv (store.map f) h := by
  intro o ho hh
  obtain ⟨y, hy, rfl⟩ := List.mem_map.mp ho
  have hyh : y.hash = h := by rw [← hhash y]; exact hh
  exact hstat y hy hyh (hneg y hy hyh)

/-- One reconciler operation that is not an `isValid == true` notification
for hash `h` preserves the negative-status invariant for `h`. -/
lemma apply_op_preserves_neg (h : String) (op : ROp) (store : List SignedOrder)
    (hop : promotesHash h op = false)
    (hneg : NegInv store h) : NegInv (apply_op store op) h := by
  cases op with
  | poll accepted =>
    refine negInv_map store h _ (fun o => ?_) (fun o _ _ hlt => ?_) hneg
    · dsimp only; split <;> rfl
    · dsimp only; split
      · next hcond =>
        have h0 : o.order_status = 0 := by
          have := (Bool.and_eq_true _ _).mp hcond
          exact of_decide_eq_true this.1
        omega
      · exact hlt
  | notify res =>
    rcases res with ⟨oh, iv, er⟩
    cases oh with
    | none => simpa [apply_op, on_update] using hneg
    | some target =>
      cases iv with
      | none => simpa [apply_op, on_update] using hneg
      | some b =>
        cases b with
        | true =>
          have htarget : ¬target = h := by
            intro hcontra
            subst hcontra
            simp [promotesHash] at hop
          simp only [apply_op, on_update, handle_fillable_order]
          refine negInv_map store h _ (fun o => ?_) (fun o _ hoh hlt => ?_) hneg
          · dsimp only; split <;> rfl
          · dsimp only; split
            · next hcond => exact absurd (hcond ▸ hoh) htarget
            · exact hlt
        | false =>
          cases er with
          | none => simpa [apply_op, on_update] using hneg
          | some reason =>
            simp only [apply_op, on_update]
            cases hlk : unfillable_handlers.lookup reason with
            | none => simpa using hneg
            | some grade =>
              have hg : grade = OrderStatus.UNFILLABLE := unfillable_lookup_grade _ _ hlk
              simp only [handle_unfillable_order]
              refine negInv_map store h _ (fun o => ?_) (fun o _ _ hlt => ?_) hneg
              · dsimp only; split <;> rfl
              · dsimp only; split
                · rw [hg]; show OrderStatus.UNFILLABLE < 0; decide
                · exact hlt


/-- A successful `mapExcept` succeeded on every input element, and every
output element is the successful image of some input element. -/
lemma mapExcept_ok {α β : Type} (f : α → Except String β) :
    ∀ (l : List α) (out : List β), mapExcept f l = .ok out →
      (∀ y ∈ out, ∃ x ∈ l, f x = .ok y) ∧ (∀ x ∈ l, ∃ y, f x = .ok y) := by
  intro l
  induction l with
  | nil =>
    intro out h
    have h2 : Except.ok ([] : List β) = Except.ok out := h
    injection h2 with h3
    subst h3
    simp
  | cons a as ih =>
    intro out h
    rw [mapExcept] at h
    cases hfa : f a with
    | error e =>
      rw [hfa] at h
      cases has : mapExcept f as with
      | error e2 =>
        rw [has] at h
        exact Except.noConfusion (show Except.error e = Except.ok out from h)
      | ok ys =>
        rw [has] at h
        exact Except.noConfusion (show Except.error e = Except.ok out from h)
    | ok y =>
      rw [hfa] at h
      cases has : mapExcept f as with
      | error e =>
        rw [has] at h
        exact Except.noConfusion (show Except.error e = Except.ok out from h)
      | ok ys =>
        rw [has] at h
        have h2 : Except.ok (y :: ys) = Except.ok out := h
        injection h2 with h3
        subst h3
        obtain ⟨ihMem, ihAll⟩ := ih ys has
        constructor
        · intro z hz
          rcases List.mem_cons.mp hz with rfl | hz2
          · exact ⟨a, List.mem_cons_self a as, hfa⟩
          · obtain ⟨x, hx, hfx⟩ := ihMem z hz2
            exact ⟨x, List.mem_cons_of_mem a hx, hfx⟩
        · intro x hx
          rcases List.mem_cons.mp hx with rfl | hx2
          · exact ⟨y, hfa⟩
          · exact ihAll x hx2

/-- A successful `asset_data_to_asset` result is the annotation its selector
prescribes. -/
lemma asset_ok_wellAnnotated (d : String) (a : AssetPairsAsset)
    (h : asset_data_to_asset d = .ok a) : wellAnnotated a = true := by
  unfold asset_data_to_asset at h
  by_cases h20 : strTake d SELECTOR_LENGTH = method_id "ERC20Token(address)"
  · rw [if_pos h20] at h
    injection h with h2
    subst h2
    simp [wellAnnotated, erc20_asset_data_to_asset, h20]
  · rw [if_neg h20] at h
    by_cases h721 : strTake d SELECTOR_LENGTH = method_id "ERC721Token(address)"
    · rw [if_pos h721] at h
      injection h with h2
      subst h2
      simp [wellAnnotated, erc721_asset_data_to_asset, h721]
    · rw [if_neg h721] at h
      exact Except.noConfusion h

/-- `asset_data_to_asset` succeeds only on a recognized proxy selector. -/
lemma asset_ok_knownSelector (d : String) (a : AssetPairsAsset)
    (h : asset_data_to_asset d = .ok a) : knownSelector d = true := by
  unfold asset_data_to_asset at h
  by_cases h20 : strTake d SELECTOR_LENGTH = method_id "ERC20Token(address)"
  · simp [knownSelector, h20]
  · rw [if_neg h20] at h
    by_cases h721 : strTake d SELECTOR_LENGTH = method_id "ERC721Token(address)"
    · simp [knownSelector, h721]
    · rw [if_neg h721] at h
      exact Except.noConfusion h

/-- A successful pair record decomposes into successful per-side
annotations. -/
lemma get_asset_pair_data_ok (p : String × String) (rec : AssetPairData)
    (h : get_asset_pair_data p = .ok rec) :
    asset_data_to_asset p.1 = .ok rec.assetDataA ∧
    asset_data_to_asset p.2 = .ok rec.assetDataB := by
  unfold get_asset_pair_data at h
  cases h1 : asset_data_to_asset p.1 with
  | error e =>
    rw [h1] at h
    cases h2 : asset_data_to_asset p.2 with
    | error e2 =>
      rw [h2] at h
      exact Except.noConfusion (show Except.error e = Except.ok rec from h)
    | ok b =>
      rw [h2] at h
      exact Except.noConfusion (show Except.error e = Except.ok rec from h)
  | ok a =>
    rw [h1] at h
    cases h2 : asset_data_to_asset p.2 with
    | error e =>
      rw [h2] at h
      exact Except.noConfusion (show Except.error e = Except.ok rec from h)
    | ok b =>
      rw [h2] at h
      have h3 : Except.ok ({ assetDataA := a, assetDataB := b } : AssetPairData) =
        Except.ok rec := h
      injection h3 with h4
      subst h4
      exact ⟨rfl, rfl⟩

lemma update_bid_price_order_status (o : SignedOrder) (d : String) :
    (update_bid_price o d).order_status = o.order_status := by
  unfold update_bid_price
  repeat' split
  all_goals rfl

lemma update_ask_price_order_status (o : SignedOrder) (d : String) :
    (update_ask_price o d).order_status = o.order_status := by
  unfold update_ask_price
  repeat' split
  all_goals rfl

/-- `SignedOrder.update` recomputes prices and hash but never touches the
lifecycle status. -/
lemma update_order_status (o : SignedOrder) :
    (SignedOrder.update o).order_status = o.order_status := by
  show (update_bid_ask_prices o).order_status = o.order_status
  unfold update_bid_ask_prices
  rw [update_ask_price_order_status, update_bid_price_order_status]

/-! ### The claims. -/

/-- C1, counterexample: the all-null order with EMPTY asset data (as the
claim reads) does not hash to `0xfaa4…`; it hashes to `0x6b27…`. -/
theorem C1_empty_asset_data_wrong_vector :
    get_order_hash nullOrderEmptyAssetData =
      "0x6b27c6de6a54105c13cd696318397648112845ca31622234a26407c84df7e5a0" ∧
    ¬get_order_hash nullOrderEmptyAssetData =
      "0xfaa49b35faeb9197e9c3ba7a52075e6dad19739549f153b77dfcf59408a4b422" := by
  have h : get_order_hash nullOrderEmptyAssetData =
      "0x6b27c6de6a54105c13cd696318397648112845ca31622234a26407c84df7e5a0" := by decide
  refine ⟨h, ?_⟩
  rw [h]
  decide

/-- C1 (amended): the all-null order whose asset-data fields hold the
20-byte null address (the `make_empty_order()` vector the repo tests) hashes
to exactly `0xfaa49b35faeb9197e9c3ba7a52075e6dad19739549f153b77dfcf59408a4b422`,
and the hash engine is a pure function, so repeated invocations on a fixed
order are byte-identical. -/
theorem C1_null_order_vector_and_determinism :
    get_order_hash nullOrderNullAddressAssetData =
      "0xfaa49b35faeb9197e9c3ba7a52075e6dad19739549f153b77dfcf59408a4b422" ∧
    ∀ o : WireOrder, get_order_hash o = get_order_hash o :=
  ⟨by decide, fun _ => rfl⟩

/-- C2, counterexample: an order already at the negative grade -1 is set to
the positive grade 1 by a single `isValid == true` notification — the
reconciler does move orders from a negative grade to a positive grade. -/
theorem C2_valid_notification_promotes_negative_order :
    statusOf [C2order] "0xdead" = some (-1) ∧
    statusOf (apply_ops [C2order]
      [ROp.notify { orderHash := some "0xdead", isValid := some true, error := none }])
      "0xdead" = some 1 := by decide

/-- C2 (amended): an order in a negative grade keeps a negative grade under
every sequence of reconciler operations that contains no `isValid == true`
notification for its hash; poll cycles and `isValid == false` notifications
never promote it (but a valid notification for its hash does, as the
counterexample shows). -/
theorem C2_negative_grades_stable_without_valid_notification
    (store : List SignedOrder) (ops : List ROp) (h : String)
    (hneg : allNegFor store h = true)
    (hops : ops.all (fun op => !promotesHash h op) = true) :
    allNegFor (apply_ops store ops) h = true := by
  rw [allNegFor_iff] at hneg ⊢
  revert hneg hops
  induction ops generalizing store with
  | nil =>
    intro hneg _
    simpa [apply_ops] using hneg
  | cons op rest ih =>
    intro hneg hops
    rw [List.all_cons, Bool.and_eq_true] at hops
    have hop : promotesHash h op = false := by
      have h1 := hops.1
      rwa [Bool.not_eq_true'] at h1
    exact ih (apply_op store op) (apply_op_preserves_neg h op store hop hneg) hops.2

/-- C2 witness: a store holding an order at grade -3 still has it negative
after a poll cycle, a recognized invalid notification for it, and a valid
notification for a different hash. -/
theorem C2_negative_grades_stable_witness :
    allNegFor (apply_ops C2wstore C2wops) "0xbeef" = true :=
  C2_negative_grades_stable_without_valid_notification C2wstore C2wops "0xbeef"
    (by decide) (by decide)

/-- C3: `paginate` evaluated at the failing input.  `paginate(items, 2, 2)`
on `[0, 1, 2, 3]` returns `items[1:3] = [1, 2]`, not the claimed second page
`items[2:4] = [2, 3]` (the start index is `page - 1`, not
`(page - 1) * per_page`); page 1 and past-the-end pages behave as claimed. -/
theorem C3_paginate_failing_input :
    paginate ([0, 1, 2, 3] : List Nat) 2 2 = [1, 2] ∧
    List.take 2 (List.drop 2 ([0, 1, 2, 3] : List Nat)) = [2, 3] ∧
    paginate ([0, 1, 2, 3] : List Nat) 1 2 = [0, 1] ∧
    paginate ([0, 1, 2, 3] : List Nat) 100 2 = [] := by decide

/-- C4: `get_bids` evaluated at the failing input.  Two fillable bids at
prices 2 and 10 on the same pair come back in the order (2, 10) because the
`bid_price` strings are compared lexicographically (`"2.…" > "10.…"`), so
the returned `bidPrice` sequence read as numbers is strictly increasing,
not non-increasing. -/
theorem C4_bid_prices_lexicographic_not_numeric :
    bidPricesOf (get_bids C4store "0xbbb1" "0xaaa1" none DEFAULT_PAGE DEFAULT_PER_PAGE) =
      ["2.000000000000000000", "10.000000000000000000"] ∧
    fixed18Val "2.000000000000000000" < fixed18Val "10.000000000000000000" := by decide

/-- C5: `get_asks` evaluated at two failing inputs.  Without a full set, two
fillable asks at prices 10 and 9 come back as (10, 9) because the ascending
sort is lexicographic on the `ask_price` strings — numerically decreasing.
With a full set, asks at prices 2 and 3 come back as (3, 2) because the
merged list is re-sorted with `reverse=True` (descending) — again
decreasing, though the plain query returned them ascending. -/
theorem C5_ask_prices_not_non_decreasing :
    (askPricesOf (get_asks C5store "0xbbb2" "0xaaa2" none DEFAULT_PAGE DEFAULT_PER_PAGE) =
      ["10.000000000000000000", "9.000000000000000000"] ∧
     fixed18Val "9.000000000000000000" < fixed18Val "10.000000000000000000") ∧
    (askPricesOf (get_asks C5store2 "0xbbb3" "0xaaa3"
        (some { LONG := "0xaaa3", SHORT := "0xsss3" }) DEFAULT_PAGE DEFAULT_PER_PAGE) =
      ["3.000000000000000000", "2.000000000000000000"] ∧
     askPricesOf (get_asks C5store2 "0xbbb3" "0xaaa3" none DEFAULT_PAGE DEFAULT_PER_PAGE) =
      ["2.000000000000000000", "3.000000000000000000"] ∧
     fixed18Val "2.000000000000000000" < fixed18Val "3.000000000000000000") := by decide

/-- C6, counterexample: an order with `maker_asset_amount = "0"` (and taker
amount 5) gets `ask_price = "0.000000000000000000"`, not the sentinel
maximum; an order with `taker_asset_amount = "0"` (and maker amount 5) gets
`bid_price = "0.000000000000000000"`, not the sentinel zero string — the
claim has the two sentinel cases swapped. -/
theorem C6_sentinels_swapped_in_claim :
    (update_ask_price C6orderMakerZero MAX_INT_STR).ask_price = "0.000000000000000000" ∧
    ¬(update_ask_price C6orderMakerZero MAX_INT_STR).ask_price = MAX_INT_STR ∧
    (update_bid_price C6orderTakerZero ZERO_STR).bid_price = "0.000000000000000000" ∧
    ¬(update_bid_price C6orderTakerZero ZERO_STR).bid_price = ZERO_STR := by decide

/-- C6 (amended): the price updaters never raise (they are total and only
set the price field); `makerAssetAmount = 0` makes the BID price fall back
to the zero sentinel (division by zero) while the ask price, when the taker
amount is a positive number, is computed as `0.000000000000000000`;
symmetrically `takerAssetAmount = 0` makes the ASK price fall back to the
maximum sentinel while the bid price, when the maker amount is a positive
number, is computed as `0.000000000000000000`. -/
theorem C6_price_default_sentinels (o : SignedOrder) :
    (o.maker_asset_amount = "0" → (update_bid_price o ZERO_STR).bid_price = ZERO_STR) ∧
    (o.taker_asset_amount = "0" → (update_ask_price o MAX_INT_STR).ask_price = MAX_INT_STR) ∧
    (∀ t : Nat, o.maker_asset_amount = "0" →
      parseDecimalNat o.taker_asset_amount = some (t + 1) →
      (update_ask_price o MAX_INT_STR).ask_price = "0.000000000000000000") ∧
    (∀ m : Nat, o.taker_asset_amount = "0" →
      parseDecimalNat o.maker_asset_amount = some (m + 1) →
      (update_bid_price o ZERO_STR).bid_price = "0.000000000000000000") := by
  have h0 : parseDecimalNat "0" = some 0 := by decide
  refine ⟨fun hm => ?_, fun ht => ?_, fun t hm hp => ?_, fun m ht hp => ?_⟩
  · cases hp : parseDecimalNat o.taker_asset_amount with
    | none => simp [update_bid_price, hm, h0, hp]
    | some tt => simp [update_bid_price, hm, h0, hp, divDecimal18]
  · cases hp : parseDecimalNat o.maker_asset_amount with
    | none => simp [update_ask_price, ht, h0, hp]
    | some mm => simp [update_ask_price, ht, h0, hp, divDecimal18]
  · simp [update_ask_price, hm, h0, hp, divDecimal18]
    decide
  · simp [update_bid_price, ht, h0, hp, divDecimal18]
    decide

/-- C6 witness: the sentinel and computed-price cases of the amended claim
at the two concrete orders. -/
theorem C6_price_default_sentinels_witness :
    (update_bid_price C6orderMakerZero ZERO_STR).bid_price = ZERO_STR ∧
    (update_ask_price C6orderTakerZero MAX_INT_STR).ask_price = MAX_INT_STR ∧
    (update_ask_price C6orderMakerZero MAX_INT_STR).ask_price = "0.000000000000000000" ∧
    (update_bid_price C6orderTakerZero ZERO_STR).bid_price = "0.000000000000000000" :=
  ⟨(C6_price_default_sentinels C6orderMakerZero).1 (by decide),
   (C6_price_default_sentinels C6orderTakerZero).2.1 (by decide),
   (C6_price_default_sentinels C6orderMakerZero).2.2.1 4 (by decide) (by decide),
   (C6_price_default_sentinels C6orderTakerZero).2.2.2 4 (by decide) (by decide)⟩

/-- C7, counterexample: the pair (LONG, SHORT) is in the transform's domain
(both sides match), yet applying the transform twice yields (SHORT, LONG),
not the original pair — the involution fails when both assets belong to the
full set. -/
theorem C7_involution_fails_when_both_sides_match :
    full_set_equiv_twice "0xaa" "0xbb" { LONG := "0xaa", SHORT := "0xbb" } =
      .ok ("0xbb", "0xaa") ∧
    ¬full_set_equiv_twice "0xaa" "0xbb" { LONG := "0xaa", SHORT := "0xbb" } =
      .ok ("0xaa", "0xbb") := by decide

/-- C7 (amended): when EXACTLY ONE side of the pair matches the full set
(the other matching neither LONG nor SHORT), applying
`get_full_set_equivalent` twice returns the original pair; and when neither
side matches, the transform fails with the ValueError. -/
theorem C7_involution_on_single_matching_side (m t : String) (fs : FullSet) :
    ((((m = fs.LONG ∨ m = fs.SHORT) ∧ ¬t = fs.LONG ∧ ¬t = fs.SHORT) ∨
      ((t = fs.LONG ∨ t = fs.SHORT) ∧ ¬m = fs.LONG ∧ ¬m = fs.SHORT)) →
      full_set_equiv_twice m t fs = .ok (m, t)) ∧
    ((¬m = fs.LONG ∧ ¬m = fs.SHORT ∧ ¬t = fs.LONG ∧ ¬t = fs.SHORT) →
      get_full_set_equivalent m t fs =
        .error "Neither make or taker assets matched the assets provided in the full set") := by
  obtain ⟨L, S⟩ := fs
  constructor
  · rintro (⟨hm, htL, htS⟩ | ⟨ht, hmL, hmS⟩)
    · rcases hm with hmL | hmS
      · by_cases hLS : L = S
        · simp [full_set_equiv_twice, get_full_set_equivalent, hmL, htL, htS, hLS]
        · simp [full_set_equiv_twice, get_full_set_equivalent, hmL, htL, htS, hLS,
            Ne.symm hLS]
      · by_cases hLS : L = S
        · simp [full_set_equiv_twice, get_full_set_equivalent, hmS, htL, htS, hLS]
        · simp [full_set_equiv_twice, get_full_set_equivalent, hmS, htL, htS, hLS,
            Ne.symm hLS]
    · rcases ht with htL | htS
      · by_cases hLS : L = S
        · simp [full_set_equiv_twice, get_full_set_equivalent, htL, hmL, hmS, hLS]
        · simp [full_set_equiv_twice, get_full_set_equivalent, htL, hmL, hmS, hLS,
            Ne.symm hLS]
      · by_cases hLS : L = S
        · simp [full_set_equiv_twice, get_full_set_equivalent, htS, hmL, hmS, hLS]
        · simp [full_set_equiv_twice, get_full_set_equivalent, htS, hmL, hmS, hLS,
            Ne.symm hLS]
  · rintro ⟨h1, h2, h3, h4⟩
    simp [get_full_set_equivalent, h1, h2, h3, h4]

/-- C7 witness: the involution at a concrete pair whose maker side is the
LONG asset, and the ValueError at a concrete pair matching neither side. -/
theorem C7_involution_witness :
    full_set_equiv_twice "0xll" "0xcc" { LONG := "0xll", SHORT := "0xss" } =
      .ok ("0xll", "0xcc") ∧
    get_full_set_equivalent "0xcc" "0xdd" { LONG := "0xll", SHORT := "0xss" } =
      .error "Neither make or taker assets matched the assets provided in the full set" :=
  ⟨(C7_involution_on_single_matching_side "0xll" "0xcc" { LONG := "0xll", SHORT := "0xss" }).1
      (by decide),
   (C7_involution_on_single_matching_side "0xcc" "0xdd" { LONG := "0xll", SHORT := "0xss" }).2
      (by decide)⟩

/-- C8, counterexample: every reason code in the fixed mapping — including
`ORDER_FILL_EXPIRED` — is bound to the same handler, which assigns the
generic `Unfillable` grade -1; no documented reason yields a more specific
negative grade. -/
theorem C8_every_reason_maps_to_generic_unfillable :
    unfillable_handlers.lookup "ORDER_FILL_EXPIRED" = some (-1) ∧
    unfillable_handlers.all (fun p => p.2 == OrderStatus.UNFILLABLE) = true := by decide

/-- C8 (amended): on an `isValid == false` notification, a reason present in
the fixed `unfillable_handlers` mapping demotes the order to the negative
grade the mapping assigns — which is always the generic `Unfillable` (-1),
never a more specific grade — and an unrecognized reason raises `KeyError`
(fatal to the handler) instead of being silently mapped. -/
theorem C8_unfillable_reason_mapping (store : List SignedOrder) (h reason : String) :
    (∀ g, unfillable_handlers.lookup reason = some g → g = OrderStatus.UNFILLABLE) ∧
    (unfillable_handlers.lookup reason = some OrderStatus.UNFILLABLE →
      on_update store { orderHash := some h, isValid := some false, error := some reason } =
        .ok (handle_unfillable_order store h OrderStatus.UNFILLABLE)) ∧
    (unfillable_handlers.lookup reason = none →
      on_update store { orderHash := some h, isValid := some false, error := some reason } =
        .error "KeyError") := by
  refine ⟨fun g hg => unfillable_lookup_grade reason g hg, fun hlk => ?_, fun hlk => ?_⟩
  · simp [on_update, hlk]
  · simp [on_update, hlk]

/-- C8 witness: a recognized reason demotes to -1, an unrecognized reason is
a KeyError, at concrete inputs. -/
theorem C8_unfillable_reason_mapping_witness :
    on_update []
      { orderHash := some "0xh1"
        isValid := some false
        error := some "ORDER_FILL_EXPIRED" } =
      .ok (handle_unfillable_order [] "0xh1" OrderStatus.UNFILLABLE) ∧
    on_update []
      { orderHash := some "0xh1"
        isValid := some false
        error := some "NOT_A_DOCUMENTED_REASON" } = .error "KeyError" ∧
    OrderStatus.UNFILLABLE = OrderStatus.UNFILLABLE :=
  ⟨(C8_unfillable_reason_mapping [] "0xh1" "ORDER_FILL_EXPIRED").2.1 (by decide),
   (C8_unfillable_reason_mapping [] "0xh1" "NOT_A_DOCUMENTED_REASON").2.2 (by decide),
   (C8_unfillable_reason_mapping [] "0xh1" "ORDER_FILL_EXPIRED").1
      OrderStatus.UNFILLABLE (by decide)⟩

/-- C9, counterexample: the ERC20 annotation of a returned asset pair has
`maxAmount = MAX_INT_STR`, whose numeric value is 2^256 rounded to 28
significant decimal digits — not 2^256 − 1 as the claim states. -/
theorem C9_erc20_max_amount_not_max_uint256 :
    maxAmountsA (get_asset_pairs C9store none none DEFAULT_PAGE DEFAULT_PER_PAGE) =
      [MAX_INT_STR] ∧
    ¬decToNat MAX_INT_STR = 2 ^ 256 - 1 := by decide

/-- C9 (amended): every asset annotation returned by a successful
`get_asset_pairs` call is exactly the annotation its proxy selector
prescribes — ERC20 (`minAmount "0"`, `maxAmount MAX_INT_STR` (2^256 rounded
to 28 significant digits, not 2^256 − 1), precision 18) or ERC721
(`minAmount "0"`, `maxAmount "1"`, precision 0) — and success requires every
fillable order's asset data to carry one of the two recognized selectors
(any other selector makes the call fail with the ValueError). -/
theorem C9_asset_pair_annotations (store : List SignedOrder) (page per_page : Nat)
    (recs : List AssetPairData) (total : Nat)
    (hok : get_asset_pairs store none none page per_page = .ok (recs, total)) :
    recs.all (fun rec => wellAnnotated rec.assetDataA && wellAnnotated rec.assetDataB) = true ∧
    store.all (fun o => !decide (0 < o.order_status)
      || (knownSelector o.maker_asset_data && knownSelector o.taker_asset_data)) = true := by
  unfold get_asset_pairs at hok
  cases hmap : mapExcept get_asset_pair_data (unique_asset_pairs store none none) with
  | error e =>
    rw [hmap] at hok
    exact Except.noConfusion hok
  | ok l =>
    rw [hmap] at hok
    have h2 : Except.ok ((paginate l page per_page, l.length) :
        List AssetPairData × Nat) = Except.ok (recs, total) := hok
    injection h2 with h3
    injection h3 with hrecs htot
    obtain ⟨hmem, hall⟩ := mapExcept_ok get_asset_pair_data _ l hmap
    constructor
    · rw [List.all_eq_true]
      intro rec hrec
      have hrecl : rec ∈ l := by
        rw [← hrecs] at hrec
        exact List.drop_subset _ _ (List.take_subset _ _ hrec)
      obtain ⟨p, hp, hpd⟩ := hmem rec hrecl
      obtain ⟨hA, hB⟩ := get_asset_pair_data_ok p rec hpd
      rw [Bool.and_eq_true]
      exact ⟨asset_ok_wellAnnotated p.1 rec.assetDataA hA,
             asset_ok_wellAnnotated p.2 rec.assetDataB hB⟩
    · rw [List.all_eq_true]
      intro o ho
      by_cases hstat : 0 < o.order_status
      · have hfilt : o ∈ store.filter (asset_pairs_where none none) := by
          rw [List.mem_filter]
          exact ⟨ho, by simp [asset_pairs_where, normalize_query_param, hstat]⟩
        have hpair : (o.maker_asset_data, o.taker_asset_data) ∈
            unique_asset_pairs store none none := by
          rw [unique_asset_pairs, List.mem_dedup]
          exact List.mem_map.mpr ⟨o, hfilt, rfl⟩
        obtain ⟨rec, hrec⟩ := hall _ hpair
        obtain ⟨hA, hB⟩ := get_asset_pair_data_ok _ rec hrec
        have k1 := asset_ok_knownSelector _ _ hA
        have k2 := asset_ok_knownSelector _ _ hB
        simp only [] at k1 k2
        simp [k1, k2]
      · simp [hstat]

/-- C9 witness: the amended annotation facts at a concrete store with one
fillable ERC20/ERC20 order. -/
theorem C9_asset_pair_annotations_witness :
    C9recs.all (fun rec => wellAnnotated rec.assetDataA && wellAnnotated rec.assetDataB) = true ∧
    C9store.all (fun o => !decide (0 < o.order_status)
      || (knownSelector o.maker_asset_data && knownSelector o.taker_asset_data)) = true :=
  C9_asset_pair_annotations C9store DEFAULT_PAGE DEFAULT_PER_PAGE C9recs 1 (by decide)

/-- C10: a schema-valid submission carrying `test_order_status = v` is
parsed by `from_json` into an order whose `order_status` is `v` (not the
default intake status 0), and `add_order` persists it with that status — the
submitter chooses the initial lifecycle status, including positive grades. -/
theorem C10_test_order_status_overrides_intake_status
    (sv : OrderJson → Bool) (j : OrderJson) (v : Int) (store : List SignedOrder)
    (hv : j.test_order_status = some v) (hs : sv j = true) :
    (from_json sv j true true).map (fun o => o.order_status) = some v ∧
    (add_order sv store j).map (List.map (fun o => o.order_status)) =
      some (store.map (fun o => o.order_status) ++ [v]) := by
  have hfj : (from_json sv j true true).map (fun o => o.order_status) = some v := by
    unfold from_json
    rw [hv]
    simp [hs, update_order_status]
  refine ⟨hfj, ?_⟩
  unfold add_order
  cases hf : from_json sv j true true with
  | none =>
    rw [hf] at hfj
    exact Option.noConfusion hfj
  | some o =>
    rw [hf] at hfj
    have hstatus : o.order_status = v := by simpa using hfj
    simp [hstatus]

/-- C10 witness: a concrete submission with `test_order_status = 2`
(FILLABLE_FULLY) is parsed and persisted at status 2. -/
theorem C10_test_order_status_witness :
    (from_json (fun _ => true) C10json true true).map (fun o => o.order_status) =
      some OrderStatus.FILLABLE_FULLY ∧
    (add_order (fun _ => true) [] C10json).map (List.map (fun o => o.order_status)) =
      some [OrderStatus.FILLABLE_FULLY] :=
  C10_test_order_status_overrides_intake_status (fun _ => true) C10json
    OrderStatus.FILLABLE_FULLY [] rfl rfl

end PyDex
